import Mathlib

/-
  Verification of the auto-save coordinator of SingleFileZ
  (src/extension/core/bg/autosave.js).

  The module keeps two process-wide tables:
    * `pendingMessages` : tab id → pending save message (or a closed-marker
      object with field `removed = true`),
    * `replacedTabIds`  : old tab id → new tab id (identity redirects).
  Lifecycle handlers (`onMessage`, `onTabUpdated`, `onTabRemoved`,
  `onTabDiscarded`, `onTabReplaced`) mutate these tables and may invoke the
  orchestrator `saveContent`, which runs the capture / skip-check / compress /
  upload-or-download pipeline inside a try/finally and always performs its
  cleanup.  External collaborators (config resolution, page capture, skip
  check, compression, transport, UI notification) are modelled as oracles;
  each fallible stage returns `Except`.  Effects are recorded as traces.
-/

namespace SFZ

/-- A browser tab as seen by the handlers: `sender.tab` / `message.tab`. -/
structure Tab where
  id : Nat
  index : Nat
  url : String
  pinned : Bool
  incognito : Bool
deriving DecidableEq

/-- A runtime message.  Save messages carry the captured payload (collapsed
into an opaque `payload` token), the auto-save flags, and—once stored in
`pendingMessages`—the sender tab.  The closed-marker object stored by
`onTabRemoved` is the same JS object shape with `removed = true` and every
other property absent (modelled by defaults). -/
structure Msg where
  method : String
  autoSaveDiscard : Bool
  autoSaveRemove : Bool
  autoSaveUnload : Bool
  removed : Bool
  tabId : Nat
  tabIndex : Nat
  taskId : Option Nat
  tab : Option Tab
  url : String
  payload : Nat
deriving DecidableEq

/-- The message sender: `sender.tab` may be absent (message not sent from a
tab's content script). -/
structure Sender where
  tab : Option Tab
  url : String
deriving DecidableEq

/-- Options resolved by `config.getOptions(tab.url, true)`; `none` at the call
site means auto-save is disabled for that URL.  Only the fields read by this
module appear; payload fields merged from the message are kept to show the
merge. -/
structure Options where
  saveToGDrive : Bool
  includeInfobar : Bool
  autoSaveDiscard : Bool
  autoClose : Bool
  content : Option Nat
  url : String
  backgroundTab : Bool
  autoSave : Bool
  incognito : Bool
  tabId : Nat
  tabIndex : Nat
  filenameConflictAction : Option String
deriving DecidableEq

/-- Result of `getPageData`: a filename and (possibly, once the download
branch assigns it) an object URL. -/
structure PageData where
  filename : String
  url : Option String
deriving DecidableEq

/-- Result of `downloads.testSkipSave`. -/
structure SkipResult where
  skipped : Bool
  filenameConflictAction : String
deriving DecidableEq

/-- Failures: `typeError` models the TypeError thrown by reading `tab.id`
when `tab` is undefined; `failure` models a rejection from a collaborator. -/
inductive Err where
  | typeError
  | failure (code : Nat)
deriving DecidableEq

/-- External collaborators of `saveContent`, with their outcomes. -/
structure Oracles where
  getOptions : String → Option Options
  getPageData : Except Err PageData
  testSkipSave : Except Err SkipResult
  includeScript : Except Err Unit
  compress : Except Err Nat
  upload : Except Err Unit
  download : Except Err Unit
  createObjectURL : String

/-- Observable collaborator invocations of one `saveContent` run. -/
inductive SEffect where
  | onStart (tabId : Nat)
  | getPageData
  | testSkip (filename : String)
  | includeInfobar
  | compress
  | createObjectURL
  | upload
  | download
  | onSaveEnd (taskId : Nat)
  | tabsRemove (tabId : Nat)
  | revokeObjectURL
  | onEnd (tabId : Nat)
deriving DecidableEq

/-- Pointwise update of a table (JS `obj[k] = v` / `delete obj[k]`). -/
def upd {α : Type} (f : Nat → Option α) (k : Nat) (v : Option α) : Nat → Option α :=
  fun n => if n = k then v else f n

/-- JS `s.endsWith(post)`, as a structurally recursive suffix test on the
character lists (extensionally `String.endsWith`, which does not reduce in
the kernel). -/
def strEndsWith (s post : String) : Bool :=
  List.isSuffixOf post.data s.data

/-- Lines 153-171: merge the captured payload fields of the message into the
resolved options. -/
def mergeOptions (opts : Options) (message : Msg) (tab : Tab) : Options :=
  { opts with
    content := some message.payload
    url := message.url
    backgroundTab := true
    autoSave := true
    incognito := tab.incognito
    tabId := tab.id
    tabIndex := tab.index }

/-- Lines 176-180: unless the target is Google Drive, run the skip check and
record its conflict action into the options; `skipped` stays undefined (false)
on the Google Drive path. -/
def skipStage (env : Oracles) (options : Options) (pd : PageData) :
    List SEffect × Except Err (Bool × Options) :=
  if options.saveToGDrive then
    ([], Except.ok (false, options))
  else
    match env.testSkipSave with
    | Except.error e => ([SEffect.testSkip pd.filename], Except.error e)
    | Except.ok ts =>
        ([SEffect.testSkip pd.filename],
         Except.ok (ts.skipped, { options with filenameConflictAction := some ts.filenameConflictAction }))

/-- Lines 181-201: the `if (!skipped)` block — optional infobar injection,
compression, then upload (Google Drive) or object-URL creation + download. -/
def notSkippedStages (env : Oracles) (options : Options) (pd : PageData) :
    PageData × List SEffect × Except Err Unit :=
  let ib : List SEffect × Except Err Unit :=
    if options.includeInfobar then ([SEffect.includeInfobar], env.includeScript)
    else ([], Except.ok ())
  match ib.2 with
  | Except.error e => (pd, ib.1, Except.error e)
  | Except.ok _ =>
      match env.compress with
      | Except.error e => (pd, ib.1 ++ [SEffect.compress], Except.error e)
      | Except.ok _blob =>
          if options.saveToGDrive then
            (pd, ib.1 ++ [SEffect.compress, SEffect.upload], env.upload)
          else
            ({ pd with url := some env.createObjectURL },
             ib.1 ++ [SEffect.compress, SEffect.createObjectURL, SEffect.download],
             env.download)

/-- Lines 172-201: the try block.  Returns the page data (if capture
succeeded, with its possibly assigned object URL), the effect trace of the
attempted stages, and the outcome. -/
def tryStages (env : Oracles) (options : Options) :
    Option PageData × List SEffect × Except Err Unit :=
  match env.getPageData with
  | Except.error e => (none, [SEffect.getPageData], Except.error e)
  | Except.ok pd =>
      let sk := skipStage env options pd
      match sk.2 with
      | Except.error e => (some pd, SEffect.getPageData :: sk.1, Except.error e)
      | Except.ok p =>
          if p.1 then
            (some pd, SEffect.getPageData :: sk.1, Except.ok ())
          else
            let ns := notSkippedStages env p.2 pd
            (some ns.1, SEffect.getPageData :: sk.1 ++ ns.2.1, ns.2.2)

/-- Lines 203-208 of the finally block: signal completion to the external
caller (taskId), or close the tab — resolving the redirect and consuming the
redirect entry — when the resolved options have `autoSaveDiscard` and
`autoClose` set. -/
def closePartOf (message : Msg) (options : Options) (tabId : Nat)
    (replaced : Nat → Option Nat) : List SEffect × (Nat → Option Nat) :=
  match message.taskId with
  | some taskId => ([SEffect.onSaveEnd taskId], replaced)
  | none =>
      if options.autoSaveDiscard && options.autoClose then
        ([SEffect.tabsRemove ((replaced tabId).getD tabId)], upd replaced tabId none)
      else ([], replaced)

/-- Lines 209-211 of the finally block: revoke the object URL when the page
data exists and carries one. -/
def revokePartOf (pd : Option PageData) : List SEffect :=
  match pd with
  | some pd => match pd.url with | some _ => [SEffect.revokeObjectURL] | none => []
  | none => []

/-- Lines 202-213: the finally block.  Signals completion or closes the tab,
releases the transient object URL, then fires the save-ended notification —
in that order. -/
def cleanupStep (message : Msg) (options : Options) (tabId : Nat)
    (pd : Option PageData) (replaced : Nat → Option Nat) :
    List SEffect × (Nat → Option Nat) :=
  ((closePartOf message options tabId replaced).1 ++ revokePartOf pd ++
     [SEffect.onEnd tabId],
   (closePartOf message options tabId replaced).2)

/-- Lines 148-215: `saveContent(message, tab)`.  Reading `tab.id` on an
undefined tab throws; a null options resolution aborts silently; otherwise the
pipeline runs inside try/finally and the cleanup always executes.  Returns the
outcome, the effect trace, and the updated `replacedTabIds` table. -/
def saveContent (env : Oracles) (message : Msg) (tab : Option Tab)
    (replaced : Nat → Option Nat) :
    Except Err Unit × List SEffect × (Nat → Option Nat) :=
  match tab with
  | none => (Except.error Err.typeError, [], replaced)
  | some tab =>
      let tabId := tab.id
      match env.getOptions tab.url with
      | none => (Except.ok (), [], replaced)
      | some opts =>
          let options := mergeOptions opts message tab
          let t := tryStages env options
          let c := cleanupStep message options tabId t.1 replaced
          (t.2.2, SEffect.onStart tabId :: t.2.1 ++ c.1, c.2)

/-- The coordinator's process-wide mutable state: the pending-intent registry
and the identity-redirect table. -/
structure BgState where
  pendingMessages : Nat → Option Msg
  replacedTabIds : Nat → Option Nat

/-- One recorded `saveContent` invocation: the message and tab it was called
with. -/
abbrev Flush := Msg × Option Tab

/-- Invoke `saveContent`, threading the redirect table and recording the
invocation. -/
def runSave (env : Oracles) (s : BgState) (m : Msg) (t : Option Tab) :
    BgState × List Flush × Except Err Unit :=
  let r := saveContent env m t s.replacedTabIds
  ({ s with replacedTabIds := r.2.2 }, [(m, t)], r.1)

/-- The closed-marker object `\x7b removed: true \x7d` stored by
`onTabRemoved`; every other property is absent (defaults). -/
def markerMsg : Msg :=
  { method := "", autoSaveDiscard := false, autoSaveRemove := false,
    autoSaveUnload := false, removed := true, tabId := 0, tabIndex := 0,
    taskId := none, tab := none, url := "", payload := 0 }

/-- The tab object built at line 61:
`\x7b id: message.tabId, index: message.tabIndex, url: sender.url \x7d`
(its other properties are absent). -/
def mkSyntheticTab (tabId tabIndex : Nat) (url : String) : Tab :=
  { id := tabId, index := tabIndex, url := url, pinned := false, incognito := false }

/-- Lines 49-73: the `.save` part of `onMessage` (the `.init` branch only
answers a query and leaves the state untouched).  When the method carries
`autoSaveDiscard` or `autoSaveRemove`: with a sender tab the message is stored
(deferred); without one, a matching closed-marker plus `autoSaveRemove`
triggers an immediate flush with a synthetic tab; `autoSaveUnload` then clears
the entry and flushes with the sender tab.  A plain save clears the entry and
flushes immediately.  A throw from an awaited `saveContent` aborts the
handler, keeping the mutations already made. -/
def onMessage (env : Oracles) (s : BgState) (message : Msg) (sender : Sender) :
    BgState × List Flush × Except Err Unit :=
  if strEndsWith message.method ".init" then
    (s, [], Except.ok ())
  else if strEndsWith message.method ".save" then
    if message.autoSaveDiscard || message.autoSaveRemove then
      let step1 : Msg × BgState × List Flush × Except Err Unit :=
        match sender.tab with
        | some tab =>
            let message' := { message with tab := some tab }
            (message',
             { s with pendingMessages := upd s.pendingMessages tab.id (some message') },
             [], Except.ok ())
        | none =>
            match s.pendingMessages message.tabId with
            | some pm =>
                if pm.removed && message.autoSaveRemove then
                  let s1 : BgState :=
                    { s with pendingMessages := upd s.pendingMessages message.tabId none }
                  (message,
                   runSave env s1 message
                     (some (mkSyntheticTab message.tabId message.tabIndex sender.url)))
                else (message, s, [], Except.ok ())
            | none => (message, s, [], Except.ok ())
      match step1.2.2.2 with
      | Except.ok _ =>
          if step1.1.autoSaveUnload then
            let s2 : BgState :=
              { step1.2.1 with
                pendingMessages := upd (step1.2.1).pendingMessages step1.1.tabId none }
            let r := runSave env s2 step1.1 sender.tab
            (r.1, step1.2.2.1 ++ r.2.1, r.2.2)
          else (step1.2.1, step1.2.2.1, Except.ok ())
      | Except.error e => (step1.2.1, step1.2.2.1, Except.error e)
    else
      let s1 : BgState :=
        { s with pendingMessages := upd s.pendingMessages message.tabId none }
      runSave env s1 message sender.tab
  else (s, [], Except.ok ())

/-- Lines 75-77: a content update discards any pending entry. -/
def onTabUpdated (s : BgState) (tabId : Nat) : BgState :=
  { s with pendingMessages := upd s.pendingMessages tabId none }

/-- Lines 79-89: tab removal.  A pending message with `autoSaveRemove` is
cleared and flushed; a pending message without it is left alone; an absent
entry becomes a closed-marker. -/
def onTabRemoved (env : Oracles) (s : BgState) (tabId : Nat) :
    BgState × List Flush × Except Err Unit :=
  match s.pendingMessages tabId with
  | some message =>
      if message.autoSaveRemove then
        runSave env { s with pendingMessages := upd s.pendingMessages tabId none }
          message message.tab
      else (s, [], Except.ok ())
  | none =>
      ({ s with pendingMessages := upd s.pendingMessages tabId (some markerMsg) },
       [], Except.ok ())

/-- Lines 91-97: tab discard.  Any truthy entry — a pending message or the
closed-marker — is cleared and passed to `saveContent` with its `tab`
property. -/
def onTabDiscarded (env : Oracles) (s : BgState) (tabId : Nat) :
    BgState × List Flush × Except Err Unit :=
  match s.pendingMessages tabId with
  | some message =>
      runSave env { s with pendingMessages := upd s.pendingMessages tabId none }
        message message.tab
  | none => (s, [], Except.ok ())

/-- Lines 99-105: identity replacement.  Only when the removed id holds an
entry and the added id holds none is the entry moved and the redirect
recorded. -/
def onTabReplaced (s : BgState) (addedTabId removedTabId : Nat) : BgState :=
  match s.pendingMessages removedTabId with
  | some m =>
      match s.pendingMessages addedTabId with
      | some _ => s
      | none =>
          { pendingMessages :=
              upd (upd s.pendingMessages addedTabId (some m)) removedTabId none,
            replacedTabIds := upd s.replacedTabIds removedTabId (some addedTabId) }
  | none => s

/-- Per-tab stored auto-save flag: `allTabsData[tab.id]`. -/
structure TabEntry where
  autoSave : Bool
deriving DecidableEq

/-- The tabs-data store read by `isEnabled`. -/
structure TabsData where
  autoSaveAll : Bool
  autoSaveUnpinned : Bool
  tabEntry : Nat → Option TabEntry

/-- A URL rule resolved by `config.getRule`. -/
structure Rule where
  autoSaveProfile : String
deriving DecidableEq

/-- The sentinel profile name disabling auto-save (config.js). -/
def DISABLED_PROFILE_NAME : String := "__disabled__"

/-- Lines 126-134: `isEnabled(tab)`.  Returns `none` (undefined) without a
tab; otherwise combines the global flags, the pin state, the per-tab opt-in
and the URL rule.  Reads only; no stored state is modified. -/
def isEnabled (allTabsData : TabsData) (getRule : String → Option Rule)
    (tab : Option Tab) : Option Bool :=
  match tab with
  | none => none
  | some tab =>
      some ((allTabsData.autoSaveAll ||
             (allTabsData.autoSaveUnpinned && !tab.pinned) ||
             (match allTabsData.tabEntry tab.id with
              | some e => e.autoSave
              | none => false)) &&
            (match getRule tab.url with
             | none => true
             | some r => decide (r.autoSaveProfile ≠ DISABLED_PROFILE_NAME)))

/-- Classifies the effects that belong to the finally block. -/
def cleanupEff : SEffect → Bool
  | SEffect.onSaveEnd _ => true
  | SEffect.tabsRemove _ => true
  | SEffect.revokeObjectURL => true
  | SEffect.onEnd _ => true
  | _ => false

/-! ### Concrete fixtures used to evaluate the model -/

/-- Sample resolved options: local download, no infobar, no auto-close. -/
def sampleOptions : Options :=
  { saveToGDrive := false, includeInfobar := false, autoSaveDiscard := false,
    autoClose := false, content := none, url := "", backgroundTab := false,
    autoSave := false, incognito := false, tabId := 0, tabIndex := 0,
    filenameConflictAction := none }

/-- Sample environment in which every collaborator succeeds. -/
def sampleEnv : Oracles :=
  { getOptions := fun _ => some sampleOptions,
    getPageData := Except.ok { filename := "page.html", url := none },
    testSkipSave := Except.ok { skipped := false, filenameConflictAction := "uniquify" },
    includeScript := Except.ok (),
    compress := Except.ok 0,
    upload := Except.ok (),
    download := Except.ok (),
    createObjectURL := "blob:sample" }

/-- Sample environment whose skip check reports the save as skipped. -/
def skipEnv : Oracles :=
  { sampleEnv with
    testSkipSave := Except.ok { skipped := true, filenameConflictAction := "skip" } }

/-- A plain save message (no auto-save flags), addressed to tab 3. -/
def plainMsg : Msg :=
  { method := "autosave.save", autoSaveDiscard := false, autoSaveRemove := false,
    autoSaveUnload := false, removed := false, tabId := 3, tabIndex := 0,
    taskId := none, tab := none, url := "https://example.org", payload := 5 }

/-- A save message carrying `autoSaveRemove`, addressed to tab 7. -/
def sampleMsg : Msg :=
  { method := "autosave.save", autoSaveDiscard := false, autoSaveRemove := true,
    autoSaveUnload := false, removed := false, tabId := 7, tabIndex := 1,
    taskId := none, tab := none, url := "https://example.org", payload := 42 }

/-- The empty coordinator state. -/
def emptyState : BgState :=
  { pendingMessages := fun _ => none, replacedTabIds := fun _ => none }

/-- A sender without a tab context. -/
def senderNoTab : Sender := { tab := none, url := "https://example.org" }

/-- The tab with id 3 used in the redirect scenario. -/
def sampleOldTab : Tab :=
  { id := 3, index := 0, url := "https://example.org", pinned := false,
    incognito := false }

/-- The `autoSaveRemove` message addressed to tab 3. -/
def sampleMsg3 : Msg := { sampleMsg with tabId := 3 }

/-- A sender whose tab is `sampleOldTab`. -/
def senderOldTab : Sender := { tab := some sampleOldTab, url := "https://example.org" }

/-! ### Theorems -/

/-- C8: for every present session, `isEnabled` returns true iff
(global-all OR (global-unpinned AND not pinned) OR the per-tab opt-in) AND
NOT (a rule exists for the tab's URL whose profile is the disabled sentinel);
a missing rule is no override.  `isEnabled` is a pure function of the stored
state, so it has no side effects on it. -/
theorem isEnabled_spec (d : TabsData) (getRule : String → Option Rule) (tab : Tab) :
    isEnabled d getRule (some tab) = some true ↔
      ((d.autoSaveAll = true ∨ (d.autoSaveUnpinned = true ∧ tab.pinned = false) ∨
        ∃ e, d.tabEntry tab.id = some e ∧ e.autoSave = true) ∧
       ¬∃ r, getRule tab.url = some r ∧ r.autoSaveProfile = DISABLED_PROFILE_NAME) := by
  unfold isEnabled
  cases hr : getRule tab.url <;> cases he : d.tabEntry tab.id <;>
    simp only [hr, he, Option.some.injEq, Bool.and_eq_true, Bool.or_eq_true,
      Bool.not_eq_true', decide_eq_true_eq, decide_eq_false_iff_not] <;>
    constructor <;> intro h <;>
    simp_all <;> tauto

/-- C10: `onTabReplaced` never overwrites an existing intent — whenever the
added id already holds an entry, or the removed id holds none, the whole
state (registry and redirect table) is unchanged. -/
theorem onTabReplaced_no_overwrite (s : BgState) (addedTabId removedTabId : Nat)
    (h : (∃ m, s.pendingMessages addedTabId = some m) ∨
         s.pendingMessages removedTabId = none) :
    onTabReplaced s addedTabId removedTabId = s := by
  unfold onTabReplaced
  cases hrem : s.pendingMessages removedTabId with
  | none => rfl
  | some m =>
      rcases h with ⟨m', hadd⟩ | hnone
      · rw [hadd]
      · exact absurd hrem (by rw [hnone]; exact fun h => Option.noConfusion h)

/-- Witness for C10 at a concrete input: an entry at the added id blocks the
replacement. -/
theorem onTabReplaced_no_overwrite_witness :
    (∃ m, ({ emptyState with
        pendingMessages := upd emptyState.pendingMessages 9 (some sampleMsg) } :
        BgState).pendingMessages 9 = some m) ∧
    onTabReplaced { emptyState with
        pendingMessages := upd emptyState.pendingMessages 9 (some sampleMsg) } 9 3 =
      { emptyState with
        pendingMessages := upd emptyState.pendingMessages 9 (some sampleMsg) } :=
  ⟨⟨sampleMsg, by simp [upd, emptyState]⟩,
   onTabReplaced_no_overwrite _ 9 3 (Or.inl ⟨sampleMsg, by simp [upd, emptyState]⟩)⟩

/-- C9: a save request carrying only `autoSaveDiscard` (no `autoSaveRemove`,
no `autoSaveUnload`) that arrives without a sender tab and with no matching
closed-marker is silently dropped: the whole state is unchanged and no save
pipeline invocation occurs. -/
theorem discard_request_without_context_dropped
    (env : Oracles) (s : BgState) (message : Msg) (sender : Sender)
    (hd : message.autoSaveDiscard = true)
    (hr : message.autoSaveRemove = false)
    (hu : message.autoSaveUnload = false)
    (ht : sender.tab = none)
    (hmk : ∀ pm, s.pendingMessages message.tabId = some pm → pm.removed = false) :
    onMessage env s message sender = (s, [], Except.ok ()) := by
  unfold onMessage
  by_cases hi : strEndsWith message.method ".init"
  · simp [hi]
  by_cases hs : strEndsWith message.method ".save"
  · cases hpm : s.pendingMessages message.tabId with
    | none => simp [hi, hs, hd, hr, hu, ht, hpm]
    | some pm => simp [hi, hs, hd, hr, hu, ht, hpm, hmk pm hpm]
  · simp [hi, hs]

/-- Witness for C9 at a concrete input. -/
theorem discard_request_without_context_dropped_witness :
    onMessage sampleEnv emptyState
        { sampleMsg with autoSaveDiscard := true, autoSaveRemove := false }
        senderNoTab
      = (emptyState, [], Except.ok ()) :=
  discard_request_without_context_dropped sampleEnv emptyState
    { sampleMsg with autoSaveDiscard := true, autoSaveRemove := false }
    senderNoTab rfl rfl rfl rfl
    (fun pm h => by simp [emptyState] at h)

/-- C5: behaviour of `onTabRemoved` by registry state.  On an absent entry it
records the closed-marker (and does not flush); on a pending entry with
`autoSaveRemove` it flushes exactly once and clears the entry; on a pending
entry without `autoSaveRemove` it does nothing at all (the entry, the whole
state and the flush list are unchanged). -/
theorem onTabRemoved_state_cases (env : Oracles) (s : BgState) (id : Nat) :
    (s.pendingMessages id = none →
       (onTabRemoved env s id).1.pendingMessages id = some markerMsg ∧
       (onTabRemoved env s id).1.replacedTabIds = s.replacedTabIds ∧
       (onTabRemoved env s id).2.1 = []) ∧
    (∀ m, s.pendingMessages id = some m → m.autoSaveRemove = true →
       (onTabRemoved env s id).2.1 = [(m, m.tab)] ∧
       (onTabRemoved env s id).1.pendingMessages id = none) ∧
    (∀ m, s.pendingMessages id = some m → m.autoSaveRemove = false →
       onTabRemoved env s id = (s, [], Except.ok ())) := by
  refine ⟨fun hnone => ?_, fun m hm hrem => ?_, fun m hm hrem => ?_⟩
  · simp [onTabRemoved, hnone, upd]
  · simp [onTabRemoved, hm, hrem, runSave, upd]
  · simp [onTabRemoved, hm, hrem]

/-- Witness for C5: all three cases applied at concrete inputs. -/
theorem onTabRemoved_state_cases_witness :
    ((onTabRemoved sampleEnv emptyState 7).1.pendingMessages 7 = some markerMsg ∧
     (onTabRemoved sampleEnv emptyState 7).1.replacedTabIds = emptyState.replacedTabIds ∧
     (onTabRemoved sampleEnv emptyState 7).2.1 = []) ∧
    ((onTabRemoved sampleEnv
        { emptyState with
          pendingMessages := upd emptyState.pendingMessages 7 (some sampleMsg) } 7).2.1
        = [(sampleMsg, sampleMsg.tab)] ∧
     (onTabRemoved sampleEnv
        { emptyState with
          pendingMessages := upd emptyState.pendingMessages 7 (some sampleMsg) } 7).1.pendingMessages 7
        = none) ∧
    (onTabRemoved sampleEnv
        { emptyState with
          pendingMessages := upd emptyState.pendingMessages 7
            (some { sampleMsg with autoSaveRemove := false }) } 7
      = ({ emptyState with
           pendingMessages := upd emptyState.pendingMessages 7
             (some { sampleMsg with autoSaveRemove := false }) }, [], Except.ok ())) :=
  ⟨(onTabRemoved_state_cases sampleEnv emptyState 7).1 rfl,
   ((onTabRemoved_state_cases sampleEnv
      { emptyState with
        pendingMessages := upd emptyState.pendingMessages 7 (some sampleMsg) } 7).2.1
     sampleMsg (by simp [upd]) rfl),
   ((onTabRemoved_state_cases sampleEnv
      { emptyState with
        pendingMessages := upd emptyState.pendingMessages 7
          (some { sampleMsg with autoSaveRemove := false }) } 7).2.2
     { sampleMsg with autoSaveRemove := false } (by simp [upd]) rfl)⟩

/-- C2 (divergence witness): `onTabDiscarded` on a closed-marker entry is not
a no-op.  The marker is truthy, so the handler clears the entry and passes the
marker to `saveContent` with its absent `tab` property; reading `tab.id` on
`undefined` throws a TypeError.  The spec states this case is a no-op. -/
theorem onTabDiscarded_closed_marker_not_noop (env : Oracles) (s : BgState) (id : Nat) :
    (onTabDiscarded env
        { s with pendingMessages := upd s.pendingMessages id (some markerMsg) } id).1.pendingMessages id
      = none ∧
    (onTabDiscarded env
        { s with pendingMessages := upd s.pendingMessages id (some markerMsg) } id).2.1
      = [(markerMsg, none)] ∧
    (onTabDiscarded env
        { s with pendingMessages := upd s.pendingMessages id (some markerMsg) } id).2.2
      = Except.error Err.typeError := by
  simp [onTabDiscarded, upd, runSave, markerMsg, saveContent]

/-- Helper: `onTabRemoved` on a pending entry carrying `autoSaveRemove`
reduces to clearing the entry and invoking the save with the stored message. -/
theorem onTabRemoved_pending_remove_eq (env : Oracles) (s : BgState) (id : Nat)
    (m : Msg) (hm : s.pendingMessages id = some m) (hrem : m.autoSaveRemove = true) :
    onTabRemoved env s id =
      runSave env { s with pendingMessages := upd s.pendingMessages id none } m m.tab := by
  unfold onTabRemoved
  rw [hm]
  simp [hrem]

/-- C3 counterexample: a save request carrying `autoSaveRemove` that arrives
with no sender tab and no prior registry entry is NOT stored as a pending
intent — the registry stays empty and no save is invoked (the claim asserts
it is stored as PENDING_SAVE). -/
theorem save_request_no_context_not_stored :
    (onMessage sampleEnv emptyState sampleMsg senderNoTab).1.pendingMessages sampleMsg.tabId
      = none ∧
    (onMessage sampleEnv emptyState sampleMsg senderNoTab).2.1 = [] := by
  constructor <;> rfl

/-- C3 (amended): a save request carrying `autoSaveRemove` that arrives WITH
a synchronous sender tab (and without `autoSaveUnload`) is stored as a
pending intent, no save executing; a subsequent `onTabRemoved` for that tab id
then triggers exactly one `saveContent` invocation with the stored message
and clears the entry.  (Without a sender tab and without a prior closed-marker
the request is dropped; see the counterexample.) -/
theorem save_request_with_context_stored_then_flushed
    (env : Oracles) (s : BgState) (message : Msg) (tab : Tab) (sender : Sender)
    (hi : strEndsWith message.method ".init" = false)
    (hs : strEndsWith message.method ".save" = true)
    (hrem : message.autoSaveRemove = true)
    (hu : message.autoSaveUnload = false)
    (ht : sender.tab = some tab) :
    (onMessage env s message sender).1.pendingMessages tab.id
        = some { message with tab := some tab } ∧
    (onMessage env s message sender).2.1 = [] ∧
    (onTabRemoved env (onMessage env s message sender).1 tab.id).2.1
        = [({ message with tab := some tab }, some tab)] ∧
    (onTabRemoved env (onMessage env s message sender).1 tab.id).1.pendingMessages tab.id
        = none := by
  have h1 : onMessage env s message sender
      = ({ s with
           pendingMessages := upd s.pendingMessages tab.id (some { message with tab := some tab }) },
         [], Except.ok ()) := by
    unfold onMessage
    simp [hi, hs, hrem, ht, hu]
  rw [h1]
  refine ⟨by simp [upd], rfl, ?_, ?_⟩
  · simp [onTabRemoved, upd, hrem, runSave]
  · simp [onTabRemoved, upd, hrem, runSave]

/-- Witness for the amended C3 at a concrete input. -/
theorem save_request_with_context_stored_then_flushed_witness :
    (onMessage sampleEnv emptyState sampleMsg3 senderOldTab).1.pendingMessages 3
        = some { sampleMsg3 with tab := some sampleOldTab } ∧
    (onMessage sampleEnv emptyState sampleMsg3 senderOldTab).2.1 = [] ∧
    (onTabRemoved sampleEnv (onMessage sampleEnv emptyState sampleMsg3 senderOldTab).1 3).2.1
        = [({ sampleMsg3 with tab := some sampleOldTab }, some sampleOldTab)] ∧
    (onTabRemoved sampleEnv
        (onMessage sampleEnv emptyState sampleMsg3 senderOldTab).1 3).1.pendingMessages 3
        = none :=
  save_request_with_context_stored_then_flushed sampleEnv emptyState sampleMsg3
    sampleOldTab senderOldTab rfl rfl rfl rfl rfl

/-- C4 counterexample: store an `autoSaveRemove` intent under tab 3, replace
tab 3 by tab 9, then close tab 9.  The flush uses the intent stored under 3
and both registry entries are gone, but — because the resolved options do not
have `autoSaveDiscard` and `autoClose` both set — the redirect entry 3 → 9
survives the flush, contradicting "the redirect table holds no entry for the
pair for every combination of the intent's other flags". -/
theorem redirect_entry_survives_flush :
    (onTabRemoved sampleEnv
        (onTabReplaced (onMessage sampleEnv emptyState sampleMsg3 senderOldTab).1 9 3)
        9).1.replacedTabIds 3 = some 9 ∧
    (onTabRemoved sampleEnv
        (onTabReplaced (onMessage sampleEnv emptyState sampleMsg3 senderOldTab).1 9 3)
        9).1.pendingMessages 3 = none ∧
    (onTabRemoved sampleEnv
        (onTabReplaced (onMessage sampleEnv emptyState sampleMsg3 senderOldTab).1 9 3)
        9).1.pendingMessages 9 = none ∧
    (onTabRemoved sampleEnv
        (onTabReplaced (onMessage sampleEnv emptyState sampleMsg3 senderOldTab).1 9 3)
        9).2.1
      = [({ sampleMsg3 with tab := some sampleOldTab }, some sampleOldTab)] := by
  refine ⟨rfl, rfl, rfl, rfl⟩

/-- C4 (amended): after `onTabReplaced(new, old)` on a stored
`autoSaveRemove` intent and `onTabRemoved(new)`, the flush uses the intent
originally stored under `old` (with its original tab), and afterwards neither
`old` nor `new` has a registry entry; the redirect entry `old → new` is
consumed exactly when options resolve, the intent carries no task id, and the
resolved options have both `autoSaveDiscard` and `autoClose` set — otherwise
it survives. -/
theorem redirect_flush_uses_original_intent
    (env : Oracles) (s : BgState) (m : Msg) (oldTab : Tab) (oldId newId : Nat)
    (hold : s.pendingMessages oldId = some m)
    (hnew : s.pendingMessages newId = none)
    (hne : oldId ≠ newId)
    (hrem : m.autoSaveRemove = true)
    (htab : m.tab = some oldTab)
    (hoid : oldTab.id = oldId) :
    (onTabRemoved env (onTabReplaced s newId oldId) newId).2.1 = [(m, some oldTab)] ∧
    (onTabRemoved env (onTabReplaced s newId oldId) newId).1.pendingMessages oldId = none ∧
    (onTabRemoved env (onTabReplaced s newId oldId) newId).1.pendingMessages newId = none ∧
    (onTabRemoved env (onTabReplaced s newId oldId) newId).1.replacedTabIds oldId =
      (match env.getOptions oldTab.url with
       | none => some newId
       | some opts =>
           if m.taskId = none ∧ opts.autoSaveDiscard = true ∧ opts.autoClose = true
           then none
           else some newId) := by
  have hne' : newId ≠ oldId := fun h => hne h.symm
  have hrep : onTabReplaced s newId oldId
      = { pendingMessages := upd (upd s.pendingMessages newId (some m)) oldId none,
          replacedTabIds := upd s.replacedTabIds oldId (some newId) } := by
    unfold onTabReplaced
    rw [hold, hnew]
  have hpend : (({ pendingMessages := upd (upd s.pendingMessages newId (some m)) oldId none,
                   replacedTabIds := upd s.replacedTabIds oldId (some newId) } : BgState)).pendingMessages newId
      = some m := by
    simp [upd, hne']
  rw [hrep, onTabRemoved_pending_remove_eq env _ newId m hpend hrem, htab]
  refine ⟨rfl, by simp [runSave, upd, hne], by simp [runSave, upd], ?_⟩
  show (saveContent env m (some oldTab) _).2.2 oldId = _
  unfold saveContent
  cases hgo : env.getOptions oldTab.url with
  | none => simp [hgo, upd]
  | some opts =>
      cases hti : m.taskId with
      | some k => simp [hgo, cleanupStep, closePartOf, hti, upd, hoid]
      | none =>
          by_cases hdc : opts.autoSaveDiscard = true ∧ opts.autoClose = true
          · simp [hgo, cleanupStep, closePartOf, hti, mergeOptions, hdc.1, hdc.2, upd, hoid]
          · rcases Decidable.not_and_iff_or_not.mp hdc with hnd | hnc
            · simp [hgo, cleanupStep, closePartOf, hti, mergeOptions, (Bool.not_eq_true _).mp hnd, upd, hoid, hdc]
            · simp [hgo, cleanupStep, closePartOf, hti, mergeOptions, (Bool.not_eq_true _).mp hnc, upd, hoid, hdc]

/-- Witness for the amended C4 at a concrete input (options resolve without
`autoClose`, so the redirect survives). -/
theorem redirect_flush_uses_original_intent_witness :
    (onTabRemoved sampleEnv
        (onTabReplaced
          { emptyState with
            pendingMessages := upd emptyState.pendingMessages 3
              (some { sampleMsg3 with tab := some sampleOldTab }) } 9 3) 9).2.1
      = [({ sampleMsg3 with tab := some sampleOldTab }, some sampleOldTab)] ∧
    (onTabRemoved sampleEnv
        (onTabReplaced
          { emptyState with
            pendingMessages := upd emptyState.pendingMessages 3
              (some { sampleMsg3 with tab := some sampleOldTab }) } 9 3) 9).1.pendingMessages 3
      = none ∧
    (onTabRemoved sampleEnv
        (onTabReplaced
          { emptyState with
            pendingMessages := upd emptyState.pendingMessages 3
              (some { sampleMsg3 with tab := some sampleOldTab }) } 9 3) 9).1.pendingMessages 9
      = none ∧
    (onTabRemoved sampleEnv
        (onTabReplaced
          { emptyState with
            pendingMessages := upd emptyState.pendingMessages 3
              (some { sampleMsg3 with tab := some sampleOldTab }) } 9 3) 9).1.replacedTabIds 3
      = (match sampleEnv.getOptions sampleOldTab.url with
         | none => some 9
         | some opts =>
             if ({ sampleMsg3 with tab := some sampleOldTab } : Msg).taskId = none ∧
                opts.autoSaveDiscard = true ∧ opts.autoClose = true
             then none
             else some 9) :=
  redirect_flush_uses_original_intent sampleEnv
    { emptyState with
      pendingMessages := upd emptyState.pendingMessages 3
        (some { sampleMsg3 with tab := some sampleOldTab }) }
    { sampleMsg3 with tab := some sampleOldTab } sampleOldTab 3 9
    (by simp [upd]) (by simp [upd, emptyState]) (by decide) rfl rfl rfl

/-- Helper: every effect the finally block emits is a cleanup effect, and the
save-ended notification is among them. -/
theorem cleanupStep_effects (message : Msg) (options : Options) (tabId : Nat)
    (pd : Option PageData) (replaced : Nat → Option Nat) :
    (∀ e ∈ (cleanupStep message options tabId pd replaced).1, cleanupEff e = true) ∧
    SEffect.onEnd tabId ∈ (cleanupStep message options tabId pd replaced).1 := by
  constructor
  · intro e he
    simp only [cleanupStep, List.mem_append] at he
    rcases he with (hc | hr) | hl
    · unfold closePartOf at hc
      cases hti : message.taskId with
      | some k => rw [hti] at hc; simp at hc; simp [hc, cleanupEff]
      | none =>
          rw [hti] at hc
          by_cases hdc : (options.autoSaveDiscard && options.autoClose) = true
          · rw [if_pos hdc] at hc; simp at hc; simp [hc, cleanupEff]
          · rw [if_neg hdc] at hc; simp at hc
    · unfold revokePartOf at hr
      cases hpd : pd with
      | none => rw [hpd] at hr; simp at hr
      | some pdv =>
          rw [hpd] at hr
          cases hurl : pdv.url with
          | none => simp [hurl] at hr
          | some u =>
              simp [hurl] at hr
              simp [hr, cleanupEff]
    · simp at hl; simp [hl, cleanupEff]
  · simp [cleanupStep]

/-- C7: in `saveContent`, when the destination is not the remote-drop target
and the skip check reports `skipped`, the overlay-injection, compression,
upload, object-URL and download stages are never invoked, yet the save-ended
cleanup notification still fires. -/
theorem skip_short_circuits_pipeline
    (env : Oracles) (message : Msg) (tab : Tab) (replaced : Nat → Option Nat)
    (opts : Options) (pd : PageData) (ts : SkipResult)
    (ho : env.getOptions tab.url = some opts)
    (hg : opts.saveToGDrive = false)
    (hpd : env.getPageData = Except.ok pd)
    (hts : env.testSkipSave = Except.ok ts)
    (hsk : ts.skipped = true) :
    SEffect.includeInfobar ∉ (saveContent env message (some tab) replaced).2.1 ∧
    SEffect.compress ∉ (saveContent env message (some tab) replaced).2.1 ∧
    SEffect.upload ∉ (saveContent env message (some tab) replaced).2.1 ∧
    SEffect.createObjectURL ∉ (saveContent env message (some tab) replaced).2.1 ∧
    SEffect.download ∉ (saveContent env message (some tab) replaced).2.1 ∧
    SEffect.onEnd tab.id ∈ (saveContent env message (some tab) replaced).2.1 := by
  have hmerge : (mergeOptions opts message tab).saveToGDrive = false := by
    simp [mergeOptions, hg]
  have ht : tryStages env (mergeOptions opts message tab)
      = (some pd, [SEffect.getPageData, SEffect.testSkip pd.filename], Except.ok ()) := by
    unfold tryStages skipStage
    rw [hpd, hmerge]
    simp [hts, hsk]
  have htr : (saveContent env message (some tab) replaced).2.1
      = SEffect.onStart tab.id ::
          [SEffect.getPageData, SEffect.testSkip pd.filename] ++
          (cleanupStep message (mergeOptions opts message tab) tab.id (some pd) replaced).1 := by
    simp [saveContent, ho, ht]
  rw [htr]
  have hcl := cleanupStep_effects message (mergeOptions opts message tab) tab.id (some pd) replaced
  refine ⟨?_, ?_, ?_, ?_, ?_, ?_⟩
  · intro hmem
    simp only [List.cons_append, List.nil_append, List.mem_cons, List.mem_append] at hmem
    rcases hmem with h | h | h | h
    · exact SEffect.noConfusion h
    · exact SEffect.noConfusion h
    · exact SEffect.noConfusion h
    · have := hcl.1 _ h
      simp [cleanupEff] at this
  · intro hmem
    simp only [List.cons_append, List.nil_append, List.mem_cons, List.mem_append] at hmem
    rcases hmem with h | h | h | h
    · exact SEffect.noConfusion h
    · exact SEffect.noConfusion h
    · exact SEffect.noConfusion h
    · have := hcl.1 _ h
      simp [cleanupEff] at this
  · intro hmem
    simp only [List.cons_append, List.nil_append, List.mem_cons, List.mem_append] at hmem
    rcases hmem with h | h | h | h
    · exact SEffect.noConfusion h
    · exact SEffect.noConfusion h
    · exact SEffect.noConfusion h
    · have := hcl.1 _ h
      simp [cleanupEff] at this
  · intro hmem
    simp only [List.cons_append, List.nil_append, List.mem_cons, List.mem_append] at hmem
    rcases hmem with h | h | h | h
    · exact SEffect.noConfusion h
    · exact SEffect.noConfusion h
    · exact SEffect.noConfusion h
    · have := hcl.1 _ h
      simp [cleanupEff] at this
  · intro hmem
    simp only [List.cons_append, List.nil_append, List.mem_cons, List.mem_append] at hmem
    rcases hmem with h | h | h | h
    · exact SEffect.noConfusion h
    · exact SEffect.noConfusion h
    · exact SEffect.noConfusion h
    · have := hcl.1 _ h
      simp [cleanupEff] at this
  · simp only [List.cons_append, List.nil_append, List.mem_cons, List.mem_append]
    exact Or.inr (Or.inr (Or.inr hcl.2))

/-- Witness for C7: the skip scenario at a concrete input. -/
theorem skip_short_circuits_pipeline_witness :
    SEffect.includeInfobar ∉ (saveContent skipEnv sampleMsg (some sampleOldTab) (fun _ => none)).2.1 ∧
    SEffect.compress ∉ (saveContent skipEnv sampleMsg (some sampleOldTab) (fun _ => none)).2.1 ∧
    SEffect.upload ∉ (saveContent skipEnv sampleMsg (some sampleOldTab) (fun _ => none)).2.1 ∧
    SEffect.createObjectURL ∉ (saveContent skipEnv sampleMsg (some sampleOldTab) (fun _ => none)).2.1 ∧
    SEffect.download ∉ (saveContent skipEnv sampleMsg (some sampleOldTab) (fun _ => none)).2.1 ∧
    SEffect.onEnd sampleOldTab.id ∈ (saveContent skipEnv sampleMsg (some sampleOldTab) (fun _ => none)).2.1 :=
  skip_short_circuits_pipeline skipEnv sampleMsg sampleOldTab (fun _ => none)
    sampleOptions { filename := "page.html", url := none }
    { skipped := true, filenameConflictAction := "skip" } rfl rfl rfl rfl rfl

/-- C6: a stored intent flushes at most once.  (a) A plain save request with
a sender tab clears the registry entry for its id and flushes exactly once;
(b) and (c) the lifecycle flush paths (`onTabRemoved`, `onTabDiscarded`) emit
the stored intent exactly once and leave its registry entry absent; (d) every
dispatcher path that invokes the save leaves the registry absent at the
flushed message's id (under the well-formedness the init protocol guarantees:
a message sent from a tab carries that tab's id), so after any flush `get(id)`
is absent and the same stored intent cannot flush again. -/
theorem flush_clears_entry (env : Oracles) (s : BgState) :
    (∀ message sender tab,
       strEndsWith message.method ".init" = false →
       strEndsWith message.method ".save" = true →
       message.autoSaveDiscard = false → message.autoSaveRemove = false →
       sender.tab = some tab →
       (onMessage env s message sender).1.pendingMessages
           = upd s.pendingMessages message.tabId none ∧
       (onMessage env s message sender).2.1 = [(message, some tab)]) ∧
    (∀ id m, s.pendingMessages id = some m →
       (onTabRemoved env s id).2.1 ≠ [] →
       (onTabRemoved env s id).2.1 = [(m, m.tab)] ∧
       (onTabRemoved env s id).1.pendingMessages id = none) ∧
    (∀ id m, s.pendingMessages id = some m →
       (onTabDiscarded env s id).2.1 = [(m, m.tab)] ∧
       (onTabDiscarded env s id).1.pendingMessages id = none) ∧
    (∀ message sender,
       (∀ t, sender.tab = some t → message.tabId = t.id) →
       ∀ f ∈ (onMessage env s message sender).2.1,
         (onMessage env s message sender).1.pendingMessages f.1.tabId = none ∧
         ∀ t, sender.tab = some t →
           (onMessage env s message sender).1.pendingMessages t.id = none) := by
  refine ⟨?_, ?_, ?_, ?_⟩
  · intro message sender tab hi hs hd hr ht
    unfold onMessage
    simp [hi, hs, hd, hr, ht, runSave, upd]
  · intro id m hm hne
    unfold onTabRemoved at hne ⊢
    rw [hm] at hne ⊢
    by_cases hrem : m.autoSaveRemove = true
    · simp [hrem, runSave, upd]
    · simp [hrem] at hne
  · intro id m hm
    unfold onTabDiscarded
    rw [hm]
    simp [runSave, upd]
  · intro message sender hwf f hf
    by_cases hi : strEndsWith message.method ".init" = true
    · simp [onMessage, hi] at hf
    by_cases hs : strEndsWith message.method ".save" = true
    · by_cases hdr : (message.autoSaveDiscard || message.autoSaveRemove) = true
      · cases ht : sender.tab with
        | some t =>
            have htid := hwf t ht
            by_cases hu : message.autoSaveUnload = true
            · simp only [onMessage, hi, hs, hdr, ht, hu, runSave, Bool.false_eq_true,
                if_false, if_true] at hf ⊢
              simp at hf
              rw [hf]
              refine ⟨by simp [upd], fun t' ht' => ?_⟩
              cases ht'
              simp [upd, htid]
            · simp [onMessage, hi, hs, hdr, ht, hu] at hf
        | none =>
            cases hpm : s.pendingMessages message.tabId with
            | none =>
                by_cases hu : message.autoSaveUnload = true
                · simp only [onMessage, hi, hs, hdr, ht, hpm, hu, runSave,
                    Bool.false_eq_true, if_false, if_true] at hf ⊢
                  simp at hf
                  rw [hf]
                  simp [upd]
                · simp [onMessage, hi, hs, hdr, ht, hpm, hu] at hf
            | some pm =>
                by_cases hmr : (pm.removed && message.autoSaveRemove) = true
                · by_cases hu : message.autoSaveUnload = true
                  · cases hsc : (saveContent env message
                        (some (mkSyntheticTab message.tabId message.tabIndex sender.url))
                        s.replacedTabIds).1 with
                    | ok u =>
                        simp only [onMessage, hi, hs, hdr, ht, hpm, hmr, hu, runSave,
                          Bool.false_eq_true, if_false, if_true] at hf ⊢
                        simp [hsc] at hf ⊢
                        rcases hf with hf | hf <;> rw [hf] <;>
                          simp [upd]
                    | error e =>
                        simp only [onMessage, hi, hs, hdr, ht, hpm, hmr, hu, runSave,
                          Bool.false_eq_true, if_false, if_true] at hf ⊢
                        simp [hsc] at hf ⊢
                        rw [hf]
                        simp [upd]
                  · cases hsc : (saveContent env message
                        (some (mkSyntheticTab message.tabId message.tabIndex sender.url))
                        s.replacedTabIds).1 with
                    | ok u =>
                        simp only [onMessage, hi, hs, hdr, ht, hpm, hmr, hu, runSave,
                          Bool.false_eq_true, if_false, if_true] at hf ⊢
                        simp [hsc] at hf ⊢
                        rw [hf]
                        simp [upd]
                    | error e =>
                        simp only [onMessage, hi, hs, hdr, ht, hpm, hmr, hu, runSave,
                          Bool.false_eq_true, if_false, if_true] at hf ⊢
                        simp [hsc] at hf ⊢
                        rw [hf]
                        simp [upd]
                · by_cases hu : message.autoSaveUnload = true
                  · simp only [onMessage, hi, hs, hdr, ht, hpm, hmr, hu, runSave,
                      Bool.false_eq_true, if_false, if_true] at hf ⊢
                    simp at hf
                    rw [hf]
                    simp [upd]
                  · simp [onMessage, hi, hs, hdr, ht, hpm, hmr, hu] at hf
      · simp only [onMessage, hi, hs, hdr, runSave, Bool.false_eq_true, if_false,
          if_true] at hf ⊢
        simp at hf
        rw [hf]
        refine ⟨by simp [upd], fun t' ht' => ?_⟩
        rw [hwf t' ht']
        simp [upd]
    · simp [onMessage, hi, hs] at hf

/-- Witness for C6: the plain-save scenario and a lifecycle flush at
concrete inputs. -/
theorem flush_clears_entry_witness :
    ((onMessage sampleEnv emptyState plainMsg senderOldTab).1.pendingMessages
        = upd emptyState.pendingMessages plainMsg.tabId none ∧
     (onMessage sampleEnv emptyState plainMsg senderOldTab).2.1
        = [(plainMsg, some sampleOldTab)]) ∧
    ((onTabDiscarded sampleEnv
        { emptyState with
          pendingMessages := upd emptyState.pendingMessages 3
            (some { sampleMsg3 with tab := some sampleOldTab }) } 3).2.1
        = [({ sampleMsg3 with tab := some sampleOldTab },
            ({ sampleMsg3 with tab := some sampleOldTab } : Msg).tab)] ∧
     (onTabDiscarded sampleEnv
        { emptyState with
          pendingMessages := upd emptyState.pendingMessages 3
            (some { sampleMsg3 with tab := some sampleOldTab }) } 3).1.pendingMessages 3
        = none) :=
  ⟨(flush_clears_entry sampleEnv emptyState).1 plainMsg senderOldTab sampleOldTab
      rfl rfl rfl rfl rfl,
   (flush_clears_entry sampleEnv
      { emptyState with
        pendingMessages := upd emptyState.pendingMessages 3
          (some { sampleMsg3 with tab := some sampleOldTab }) }).2.2.1 3
      { sampleMsg3 with tab := some sampleOldTab } (by simp [upd])⟩

/-- Helper: the compress/upload/download block emits only pipeline effects,
never cleanup effects. -/
theorem notSkippedStages_effects (env : Oracles) (options : Options) (pd : PageData) :
    ∀ e ∈ (notSkippedStages env options pd).2.1, cleanupEff e = false := by
  unfold notSkippedStages
  by_cases hib : options.includeInfobar = true <;>
  by_cases hgd : options.saveToGDrive = true <;>
  cases his : env.includeScript <;>
  cases hco : env.compress <;>
  simp [hib, hgd, his, hco] <;>
  decide

/-- Helper: the skip check emits only its own probe effect. -/
theorem skipStage_effects (env : Oracles) (options : Options) (pd : PageData) :
    ∀ e ∈ (skipStage env options pd).1, e = SEffect.testSkip pd.filename := by
  intro e he
  unfold skipStage at he
  by_cases hgd : options.saveToGDrive = true
  · simp [hgd] at he
  · cases hts : env.testSkipSave <;> simp [hgd, hts] at he <;> exact he

/-- Helper: the try block emits only pipeline effects, never cleanup
effects. -/
theorem tryStages_effects (env : Oracles) (options : Options) :
    ∀ e ∈ (tryStages env options).2.1, cleanupEff e = false := by
  intro e he
  unfold tryStages at he
  cases hpd : env.getPageData with
  | error er =>
      rw [hpd] at he
      simp at he
      subst he
      rfl
  | ok pd =>
      rw [hpd] at he
      have hsk := skipStage_effects env options pd
      cases hts2 : (skipStage env options pd).2 with
      | error e2 =>
          simp [hts2] at he
          rcases he with he | he
          · subst he; rfl
          · rw [hsk e he]; rfl
      | ok p =>
          by_cases hp : p.1 = true
          · simp [hts2, hp] at he
            rcases he with he | he
            · subst he; rfl
            · rw [hsk e he]; rfl
          · simp [hts2, hp] at he
            rcases he with he | he | he
            · subst he; rfl
            · rw [hsk e he]; rfl
            · exact notSkippedStages_effects env p.2 pd e he

/-- Helper: if the object URL was created, the page data returned by the
compress/upload/download block carries it. -/
theorem notSkippedStages_create (env : Oracles) (options : Options) (pd : PageData) :
    SEffect.createObjectURL ∈ (notSkippedStages env options pd).2.1 →
    (notSkippedStages env options pd).1.url = some env.createObjectURL := by
  intro hmem
  unfold notSkippedStages at hmem ⊢
  by_cases hib : options.includeInfobar = true <;>
  by_cases hgd : options.saveToGDrive = true <;>
  cases his : env.includeScript <;>
  cases hco : env.compress <;>
  simp [hib, hgd, his, hco] at hmem ⊢

/-- Helper: the four possible evaluations of the try block, by the outcomes
of the capture and skip-check collaborators. -/
theorem tryStages_cases (env : Oracles) (options : Options) :
    (∃ er, env.getPageData = Except.error er ∧
       tryStages env options = (none, [SEffect.getPageData], Except.error er)) ∨
    (∃ pd e2, env.getPageData = Except.ok pd ∧
       (skipStage env options pd).2 = Except.error e2 ∧
       tryStages env options
         = (some pd, SEffect.getPageData :: (skipStage env options pd).1, Except.error e2)) ∨
    (∃ pd p, env.getPageData = Except.ok pd ∧
       (skipStage env options pd).2 = Except.ok p ∧ p.1 = true ∧
       tryStages env options
         = (some pd, SEffect.getPageData :: (skipStage env options pd).1, Except.ok ())) ∨
    (∃ pd p, env.getPageData = Except.ok pd ∧
       (skipStage env options pd).2 = Except.ok p ∧ p.1 = false ∧
       tryStages env options
         = (some (notSkippedStages env p.2 pd).1,
            SEffect.getPageData :: (skipStage env options pd).1 ++
              (notSkippedStages env p.2 pd).2.1,
            (notSkippedStages env p.2 pd).2.2)) := by
  cases hpd : env.getPageData with
  | error er => exact Or.inl ⟨er, rfl, by simp [tryStages, hpd]⟩
  | ok pd =>
      cases hts2 : (skipStage env options pd).2 with
      | error e2 =>
          exact Or.inr (Or.inl ⟨pd, e2, rfl, hts2, by simp [tryStages, hpd, hts2]⟩)
      | ok p =>
          by_cases hp : p.1 = true
          · exact Or.inr (Or.inr (Or.inl ⟨pd, p, rfl, hts2, hp,
              by simp [tryStages, hpd, hts2, hp]⟩))
          · exact Or.inr (Or.inr (Or.inr ⟨pd, p, rfl, hts2,
              Bool.not_eq_true _ |>.mp hp, by simp [tryStages, hpd, hts2, hp]⟩))

/-- Helper: if the try block created the object URL, the page data it
returns carries that URL. -/
theorem tryStages_url_of_create (env : Oracles) (options : Options) :
    SEffect.createObjectURL ∈ (tryStages env options).2.1 →
    ∃ pdv, (tryStages env options).1 = some pdv ∧ pdv.url = some env.createObjectURL := by
  intro hmem
  rcases tryStages_cases env options with
    ⟨er, hpd, heq⟩ | ⟨pd, e2, hpd, hsk2, heq⟩ | ⟨pd, p, hpd, hsk2, hp, heq⟩ |
    ⟨pd, p, hpd, hsk2, hp, heq⟩ <;> rw [heq] at hmem ⊢
  · simp at hmem
  · simp at hmem
    exact SEffect.noConfusion (skipStage_effects env options pd _ hmem)
  · simp at hmem
    exact SEffect.noConfusion (skipStage_effects env options pd _ hmem)
  · simp at hmem ⊢
    rcases hmem with h | h
    · exact SEffect.noConfusion (skipStage_effects env options pd _ h)
    · exact notSkippedStages_create env p.2 pd h

/-- Helper: the completion-or-close part is empty or a single signal. -/
theorem closePartOf_shape (message : Msg) (options : Options) (tabId : Nat)
    (replaced : Nat → Option Nat) :
    (closePartOf message options tabId replaced).1 = [] ∨
    (∃ k, (closePartOf message options tabId replaced).1 = [SEffect.onSaveEnd k]) ∨
    ∃ k, (closePartOf message options tabId replaced).1 = [SEffect.tabsRemove k] := by
  unfold closePartOf
  cases hti : message.taskId with
  | some k => exact Or.inr (Or.inl ⟨k, rfl⟩)
  | none =>
      by_cases hdc : (options.autoSaveDiscard && options.autoClose) = true
      · exact Or.inr (Or.inr ⟨(replaced tabId).getD tabId, by simp [hdc]⟩)
      · exact Or.inl (by simp [hdc])

/-- Helper: the revoke part is empty or the single revoke effect. -/
theorem revokePartOf_shape (pd : Option PageData) :
    revokePartOf pd = [] ∨ revokePartOf pd = [SEffect.revokeObjectURL] := by
  unfold revokePartOf
  cases pd with
  | none => exact Or.inl rfl
  | some pdv =>
      cases hurl : pdv.url with
      | none => exact Or.inl (by simp [hurl])
      | some u => exact Or.inr (by simp [hurl])

/-- C1: once options resolve, `saveContent` runs its cleanup exactly once on
every outcome — success, skip, or a failure of any pipeline stage (all
quantified through the oracle outcomes): the trace decomposes into pipeline
effects followed by the cleanup suffix in order completion-signal-or-close,
then object-URL release, then save-ended; the save-ended notification fires
exactly once; and whenever a transient object URL was created, the release
effect is present. -/
theorem saveContent_cleanup_exactly_once
    (env : Oracles) (message : Msg) (tab : Tab) (replaced : Nat → Option Nat)
    (opts : Options) (ho : env.getOptions tab.url = some opts) :
    ∃ pre closeL revokeL,
      (saveContent env message (some tab) replaced).2.1
        = pre ++ closeL ++ revokeL ++ [SEffect.onEnd tab.id] ∧
      (∀ e ∈ pre, cleanupEff e = false) ∧
      (closeL = [] ∨ (∃ k, closeL = [SEffect.onSaveEnd k]) ∨
        ∃ k, closeL = [SEffect.tabsRemove k]) ∧
      (revokeL = [] ∨ revokeL = [SEffect.revokeObjectURL]) ∧
      (SEffect.createObjectURL ∈ pre → revokeL = [SEffect.revokeObjectURL]) ∧
      ((saveContent env message (some tab) replaced).2.1).count (SEffect.onEnd tab.id)
        = 1 := by
  refine ⟨SEffect.onStart tab.id :: (tryStages env (mergeOptions opts message tab)).2.1,
    (closePartOf message (mergeOptions opts message tab) tab.id replaced).1,
    revokePartOf (tryStages env (mergeOptions opts message tab)).1, ?_, ?_, ?_, ?_, ?_, ?_⟩
  · simp [saveContent, ho, cleanupStep]
  · intro e he
    rcases List.mem_cons.mp he with he | he
    · subst he; rfl
    · exact tryStages_effects env (mergeOptions opts message tab) e he
  · exact closePartOf_shape message (mergeOptions opts message tab) tab.id replaced
  · exact revokePartOf_shape (tryStages env (mergeOptions opts message tab)).1
  · intro hmem
    rcases List.mem_cons.mp hmem with hmem | hmem
    · exact SEffect.noConfusion hmem
    · obtain ⟨pdv, hpdv, hurl⟩ := tryStages_url_of_create env (mergeOptions opts message tab) hmem
      unfold revokePartOf
      rw [hpdv]
      simp [hurl]
  · have htr : (saveContent env message (some tab) replaced).2.1
        = (SEffect.onStart tab.id :: (tryStages env (mergeOptions opts message tab)).2.1)
            ++ (closePartOf message (mergeOptions opts message tab) tab.id replaced).1
            ++ revokePartOf (tryStages env (mergeOptions opts message tab)).1
            ++ [SEffect.onEnd tab.id] := by
      simp [saveContent, ho, cleanupStep]
    rw [htr]
    rw [List.count_append, List.count_append, List.count_append]
    have h1 : ((SEffect.onStart tab.id :: (tryStages env (mergeOptions opts message tab)).2.1)).count (SEffect.onEnd tab.id) = 0 := by
      rw [List.count_eq_zero]
      intro hmem
      rcases List.mem_cons.mp hmem with h | h
      · exact SEffect.noConfusion h
      · have := tryStages_effects env (mergeOptions opts message tab) _ h
        simp [cleanupEff] at this
    have h2 : ((closePartOf message (mergeOptions opts message tab) tab.id replaced).1).count (SEffect.onEnd tab.id) = 0 := by
      rcases closePartOf_shape message (mergeOptions opts message tab) tab.id replaced with
        h | ⟨k, h⟩ | ⟨k, h⟩ <;> rw [h] <;> simp
    have h3 : (revokePartOf (tryStages env (mergeOptions opts message tab)).1).count (SEffect.onEnd tab.id) = 0 := by
      rcases revokePartOf_shape (tryStages env (mergeOptions opts message tab)).1 with
        h | h <;> rw [h] <;> simp
    rw [h1, h2, h3]
    simp

/-- Witness for C1 at a concrete, fully succeeding environment. -/
theorem saveContent_cleanup_exactly_once_witness :
    ∃ pre closeL revokeL,
      (saveContent sampleEnv sampleMsg (some sampleOldTab) (fun _ => none)).2.1
        = pre ++ closeL ++ revokeL ++ [SEffect.onEnd sampleOldTab.id] ∧
      (∀ e ∈ pre, cleanupEff e = false) ∧
      (closeL = [] ∨ (∃ k, closeL = [SEffect.onSaveEnd k]) ∨
        ∃ k, closeL = [SEffect.tabsRemove k]) ∧
      (revokeL = [] ∨ revokeL = [SEffect.revokeObjectURL]) ∧
      (SEffect.createObjectURL ∈ pre → revokeL = [SEffect.revokeObjectURL]) ∧
      ((saveContent sampleEnv sampleMsg (some sampleOldTab) (fun _ => none)).2.1).count
          (SEffect.onEnd sampleOldTab.id) = 1 :=
  saveContent_cleanup_exactly_once sampleEnv sampleMsg sampleOldTab (fun _ => none)
    sampleOptions rfl

end SFZ
